import Mathlib

/-!
Shallow embedding of the `dex` package (socket.go, order_factory.go) of the
matching-engine repository, together with theorems checking the
natural-language specification against it.

Stateful Go code becomes explicit state passing; `uint64` counters become
naturals reduced modulo 2^64 at each increment; code that can panic returns
`Except String`; channel loops become folds over the list of queued items,
producing the trace of engine invocations (inbound) or the list of messages
written to the connection (outbound).
-/

namespace Dex

/-- Ethereum addresses, hashes and signatures are opaque atoms here. -/
abbrev Address := Nat

/-- Modulus of Go's `uint64`, the type of the factory counters. -/
def U64 : Nat := 2 ^ 64

/-- A token, with its contract address and display symbol. -/
structure Token where
  address : Address
  symbol : String
  deriving DecidableEq, Repr

/-- The token pair a factory is bound to; only its identifier is used by the
embedded code. -/
structure TokenPair where
  ID : Nat
  deriving DecidableEq, Repr

/-- A wallet: an address plus signing key material (opaque). -/
structure Wallet where
  address : Address
  privKey : Nat
  deriving DecidableEq, Repr

/-- Fee / expiry parameters held by the factory (`OrderParams`). -/
structure OrderParams where
  FeeMake : Int
  FeeTake : Int
  Nonce : Int
  Expires : Int
  deriving DecidableEq, Repr

/-- Modelled from the spec: the factory's `NonceGenerator` is Go's
`*rand.Rand`, seeded once at construction. We model the pseudo-random source
as an arbitrary infinite sequence of naturals together with a position;
`Intn n` returns the next value reduced into `[0, n)` — the documented
contract of `rand.Intn` — and advances the position. -/
structure NonceGen where
  seq : Nat → Nat
  pos : Nat

/-- Draw the next pseudo-random value in `[0, n)` and advance the generator. -/
def NonceGen.Intn (g : NonceGen) (n : Nat) : Nat × NonceGen :=
  (g.seq g.pos % n, { g with pos := g.pos + 1 })

/-- The Order entity, with exactly the fields `NewOrder` fills.
`AmountBuy`, `AmountSell`, the fees, `Expires` and `Nonce` are `*big.Int` in
the source, hence unbounded `Int` here; `Id` is `uint64`. -/
structure Order where
  Id : Nat
  ExchangeAddress : Address
  TokenBuy : Address
  SymbolBuy : String
  TokenSell : Address
  SymbolSell : String
  AmountBuy : Int
  AmountSell : Int
  Expires : Int
  FeeMake : Int
  FeeTake : Int
  Nonce : Int
  Maker : Address
  Price : Int
  Amount : Int
  PairID : Nat
  Hash : Nat
  Signature : Option Nat
  deriving DecidableEq, Repr

/-- The Go zero value of `Order`. -/
def Order.zero : Order :=
  { Id := 0, ExchangeAddress := 0, TokenBuy := 0, SymbolBuy := "",
    TokenSell := 0, SymbolSell := "", AmountBuy := 0, AmountSell := 0,
    Expires := 0, FeeMake := 0, FeeTake := 0, Nonce := 0, Maker := 0,
    Price := 0, Amount := 0, PairID := 0, Hash := 0, Signature := none }

/-- The Trade entity, with exactly the fields `NewTrade` fills. -/
structure Trade where
  OrderHash : Nat
  PairID : Nat
  Taker : Address
  TradeNonce : Int
  Amount : Int
  Signature : Option Nat
  deriving DecidableEq, Repr

/-- The Go zero value of `Trade`. -/
def Trade.zero : Trade :=
  { OrderHash := 0, PairID := 0, Taker := 0, TradeNonce := 0, Amount := 0,
    Signature := none }

/-- The OrderCancel entity, with exactly the fields `NewOrderCancel` fills. -/
structure OrderCancel where
  OrderId : Nat
  PairID : Nat
  OrderHash : Nat
  Signature : Option Nat
  deriving DecidableEq, Repr

/-- The Go zero value of `OrderCancel`. -/
def OrderCancel.zero : OrderCancel :=
  { OrderId := 0, PairID := 0, OrderHash := 0, Signature := none }

/-- Modelled from the spec: the hash of an order. The hashing primitive lives
outside src/ (the Identity/Signing collaborator); the spec fixes no formula,
only that the hash is derived from the order's fields, so we use a concrete
injective-enough stand-in combination of them. -/
def orderHashOf (o : Order) : Nat :=
  o.Id + 2 * o.PairID + 3 * o.AmountBuy.natAbs + 5 * o.AmountSell.natAbs +
    7 * o.Nonce.natAbs + 11 * o.Maker

/-- Modelled from the spec: `Order.Sign` lives outside src/. Per the spec the
signing primitive always succeeds, computing the order's hash and attaching a
signature produced with the wallet, so the result carries a non-nil
signature. -/
def Order.Sign (o : Order) (w : Wallet) : Order :=
  { o with Hash := orderHashOf o, Signature := some (w.privKey + orderHashOf o) }

/-- Modelled from the spec: `Trade.Sign` lives outside src/; it attaches a
wallet signature and always succeeds. -/
def Trade.Sign (t : Trade) (w : Wallet) : Trade :=
  { t with Signature := some (w.privKey + t.OrderHash + t.TradeNonce.natAbs) }

/-- Modelled from the spec: `OrderCancel.Sign` lives outside src/; it attaches
a wallet signature and always succeeds. -/
def OrderCancel.Sign (oc : OrderCancel) (w : Wallet) : OrderCancel :=
  { oc with Signature := some (w.privKey + oc.OrderHash + oc.OrderId) }

/-- The factory state (`OrderFactory`). The `*ethclient.Client` handle is an
external resource used only at construction and is not part of the model; the
three counters are `uint64`. `NonceGenerator` holds the state behind the
factory's `*rand.Rand` pointer. -/
structure OrderFactory where
  Pair : TokenPair
  Wallet : Wallet
  Exchange : Address
  Params : OrderParams
  TradeNonce : Nat
  OrderNonce : Nat
  CurrentOrderID : Nat
  NonceGenerator : NonceGen

/-- Embedding of `NewOrderFactory`. The websocket RPC dial is an external
effect, represented by `dialOk`; on failure the source logs and returns nil
(`none` here). `exchangeAddr` stands for the global `config.Exchange`, and
`g` for the time-seeded random source. `OrderNonce` and `TradeNonce` are not
set by the source literal, hence Go zero values. -/
def NewOrderFactory (dialOk : Bool) (exchangeAddr : Address) (p : TokenPair)
    (w : Wallet) (g : NonceGen) : Option OrderFactory :=
  if dialOk then
    some { Pair := p, Wallet := w, Exchange := exchangeAddr,
           Params := { FeeMake := 0, FeeTake := 0, Nonce := 0, Expires := 10 ^ 18 },
           TradeNonce := 0, OrderNonce := 0, CurrentOrderID := 0,
           NonceGenerator := g }
  else none

/-- Embedding of `OrderFactory.NewOrder`: fills the order fields from the
factory state and arguments, draws a nonce with `Intn 1000`, signs, then
post-increments `OrderNonce` and `CurrentOrderID` (uint64 arithmetic).
The source's error result is always nil and is omitted. -/
def OrderFactory.NewOrder (f : OrderFactory) (tokenBuy : Token) (amountBuy : Int)
    (tokenSell : Token) (amountSell : Int) : Order × OrderFactory :=
  let drawn := f.NonceGenerator.Intn 1000
  let o : Order :=
    { Id := f.CurrentOrderID
      ExchangeAddress := f.Exchange
      TokenBuy := tokenBuy.address
      SymbolBuy := tokenBuy.symbol
      TokenSell := tokenSell.address
      SymbolSell := tokenSell.symbol
      AmountBuy := amountBuy
      AmountSell := amountSell
      Expires := f.Params.Expires
      FeeMake := f.Params.FeeMake
      FeeTake := f.Params.FeeTake
      Nonce := (drawn.1 : Int)
      Maker := f.Wallet.address
      Price := 0
      Amount := 0
      PairID := f.Pair.ID
      Hash := 0
      Signature := none }
  (o.Sign f.Wallet,
   { f with OrderNonce := (f.OrderNonce + 1) % U64,
            CurrentOrderID := (f.CurrentOrderID + 1) % U64,
            NonceGenerator := drawn.2 })

/-- Embedding of `OrderFactory.NewTrade`: fills the trade from the order and
factory state, draws a trade nonce with `Intn 1000`, signs, then
post-increments `TradeNonce`. -/
def OrderFactory.NewTrade (f : OrderFactory) (o : Order) (amount : Int) :
    Trade × OrderFactory :=
  let drawn := f.NonceGenerator.Intn 1000
  let t : Trade :=
    { OrderHash := o.Hash
      PairID := f.Pair.ID
      Taker := f.Wallet.address
      TradeNonce := (drawn.1 : Int)
      Amount := amount
      Signature := none }
  (t.Sign f.Wallet,
   { f with TradeNonce := (f.TradeNonce + 1) % U64, NonceGenerator := drawn.2 })

/-- Embedding of `OrderFactory.NewOrderCancel`: builds the cancel from the
order's id, the factory's pair and the order's hash, and signs. The source
mutates no factory field, so the factory is returned unchanged. -/
def OrderFactory.NewOrderCancel (f : OrderFactory) (o : Order) :
    OrderCancel × OrderFactory :=
  let oc : OrderCancel :=
    { OrderId := o.Id, PairID := f.Pair.ID, OrderHash := o.Hash, Signature := none }
  (oc.Sign f.Wallet, f)

/-- The shared enum of message / event type constants used by socket.go. -/
inductive MsgType where
  | PLACE_ORDER
  | CANCEL_ORDER
  | SIGNED_DATA
  | DONE
  | ORDER_PLACED
  | ORDER_PARTIALLY_FILLED
  | ORDER_FILLED
  | ORDER_CANCELED
  | ORDER_EXECUTED
  | ORDER_TX_SUCCESS
  | ORDER_TX_ERROR
  | TRADE_EXECUTED
  | TRADE_TX_SUCCESS
  | TRADE_TX_ERROR
  deriving DecidableEq, Repr

/-- A dynamically typed Go value (an empty-interface value holding decoded
JSON): nil, scalars, objects and arrays. Type assertions on these model Go's
run-time assertions, which panic on mismatch. -/
inductive GoValue where
  | vnil : GoValue
  | vbool : Bool → GoValue
  | vnum : Int → GoValue
  | vstr : String → GoValue
  | vmap : List (String × GoValue) → GoValue
  | varr : List GoValue → GoValue

/-- Indexing a Go string-keyed map of interface values: a missing key yields
the nil interface value. -/
def goLookup (kvs : List (String × GoValue)) (k : String) : GoValue :=
  match kvs.find? (fun kv => kv.1 == k) with
  | some kv => kv.2
  | none => .vnil

/-- Read an integer field of a decoded JSON object; Go zero value on
absence or mismatch. -/
def goNum (v : GoValue) : Int :=
  match v with
  | .vnum n => n
  | _ => 0

/-- The `OrderPayload` wrapper (a JSON object with one field, `order`). -/
structure OrderPayload where
  Order : Order
  deriving DecidableEq, Repr

/-- The `TradePayload` wrapper (a JSON object with one field, `trade`). -/
structure TradePayload where
  Trade : Trade
  deriving DecidableEq, Repr

/-- The `OrderCancelPayload` wrapper. -/
structure OrderCancelPayload where
  OrderCancel : OrderCancel
  deriving DecidableEq, Repr

/-- A message payload is a Go interface value: raw decoded JSON for inbound
messages, or one of the typed wrappers for outbound ones. -/
inductive MessagePayload where
  | raw : GoValue → MessagePayload
  | orderP : OrderPayload → MessagePayload
  | tradeP : TradePayload → MessagePayload
  | orderCancelP : OrderCancelPayload → MessagePayload

/-- The Message envelope. -/
structure Message where
  MessageType : MsgType
  Payload : MessagePayload

/-- An event payload is a Go interface value holding one of the three types
the outbound switch asserts it to: `*Order`, `*TradePayload`, `*Trade`. -/
inductive EventPayload where
  | pOrder : Order → EventPayload
  | pTradePayload : TradePayload → EventPayload
  | pTrade : Trade → EventPayload

/-- An Event emitted by the matching engine. -/
structure Event where
  eventType : MsgType
  payload : EventPayload

/-- One invocation of the external Engine, as recorded in the dispatch
trace. -/
inductive EngineCall where
  | addOrder : Order → EngineCall
  | cancelOrder : OrderCancel → EngineCall
  | executeOrder : Trade → EngineCall

/-- Modelled from the spec: `Order.Decode` lives outside src/. It fills the
order's fields from the decoded JSON object; absent or mismatched fields keep
their Go zero values. -/
def Order.Decode (kvs : List (String × GoValue)) : Order :=
  { Order.zero with
      Id := (goNum (goLookup kvs "id")).natAbs
      AmountBuy := goNum (goLookup kvs "amountBuy")
      AmountSell := goNum (goLookup kvs "amountSell")
      Nonce := goNum (goLookup kvs "nonce")
      PairID := (goNum (goLookup kvs "pairID")).natAbs
      Hash := (goNum (goLookup kvs "hash")).natAbs }

/-- Modelled from the spec: `DecodeOrderCancelPayload` lives outside src/.
Decoding must reject mismatches: a payload that is not a decoded JSON object
yields an error and leaves the freshly constructed receiver at its zero
value; on an object, fields are read with zero-value defaults. -/
def DecodeOrderCancelPayload (p : MessagePayload) : Except String OrderCancel :=
  match p with
  | .raw (.vmap kvs) =>
      .ok { OrderId := (goNum (goLookup kvs "orderId")).natAbs
            PairID := (goNum (goLookup kvs "pairID")).natAbs
            OrderHash := (goNum (goLookup kvs "orderHash")).natAbs
            Signature := none }
  | _ => .error "could not decode OrderCancelPayload"

/-- Modelled from the spec: `DecodeTradePayload` lives outside src/, with the
same rejection contract as the cancel decoder. -/
def DecodeTradePayload (p : MessagePayload) : Except String Trade :=
  match p with
  | .raw (.vmap kvs) =>
      .ok { Trade.zero with
              OrderHash := (goNum (goLookup kvs "orderHash")).natAbs
              PairID := (goNum (goLookup kvs "pairID")).natAbs
              Amount := goNum (goLookup kvs "amount") }
  | _ => .error "could not decode TradePayload"

/-- Embedding of `Socket.placeOrder`: asserts the payload to a JSON object,
indexes its "order" key and asserts that to a JSON object — each failed
assertion is a Go panic (`.error`) — then decodes the order and submits it to
`Engine.AddOrder` (an engine error is only logged). -/
def placeOrder (p : MessagePayload) : Except String (List EngineCall) :=
  match p with
  | .raw (.vmap kvs) =>
      match goLookup kvs "order" with
      | .vmap okvs => .ok [.addOrder (Order.Decode okvs)]
      | _ => .error "interface conversion"
  | _ => .error "interface conversion"

/-- Embedding of `Socket.cancelOrder`: a decode error is logged but control
falls through, so `Engine.CancelOrder` is invoked unconditionally — on decode
failure with the zero-value OrderCancel left in the fresh payload struct. -/
def cancelOrder (p : MessagePayload) : List EngineCall :=
  match DecodeOrderCancelPayload p with
  | .ok oc => [.cancelOrder oc]
  | .error _ => [.cancelOrder OrderCancel.zero]

/-- Embedding of `Socket.executeOrder`: a decode error is logged but control
falls through, so `Engine.ExecuteOrder` is invoked unconditionally — on
decode failure with the zero-value Trade. -/
def executeOrder (p : MessagePayload) : List EngineCall :=
  match DecodeTradePayload p with
  | .ok t => [.executeOrder t]
  | .error _ => [.executeOrder Trade.zero]

/-- Embedding of `Socket.handleMessagesIn` over the queued inbound messages:
routes each message by `MessageType` through the switch, accumulating the
trace of engine invocations in arrival order. A panic (`placeOrder`
assertion failure or the default branch) aborts the loop, returning the
calls made before it together with the panic text. -/
def handleMessagesIn : List Message → Except (List EngineCall × String) (List EngineCall)
  | [] => .ok []
  | m :: ms =>
    let step : Except String (List EngineCall) :=
      match m.MessageType with
      | .PLACE_ORDER => placeOrder m.Payload
      | .CANCEL_ORDER => .ok (cancelOrder m.Payload)
      | .SIGNED_DATA => .ok (executeOrder m.Payload)
      | .DONE => .ok []
      | _ => .error "Unknown message type"
    match step with
    | .error e => .error ([], e)
    | .ok calls =>
      match handleMessagesIn ms with
      | .error r => .error (calls ++ r.1, r.2)
      | .ok rest => .ok (calls ++ rest)

/-- Embedding of `Socket.sendOrderPlaced` (a write error is returned to the
caller, which ignores it; the produced message is what is written). -/
def sendOrderPlaced (o : Order) : Message :=
  { MessageType := .ORDER_PLACED, Payload := .orderP { Order := o } }

/-- Embedding of `Socket.sendOrderFilled`. -/
def sendOrderFilled (p : TradePayload) : Message :=
  { MessageType := .ORDER_FILLED, Payload := .tradeP p }

/-- Embedding of `Socket.sendOrderPartiallyFilled`. -/
def sendOrderPartiallyFilled (p : TradePayload) : Message :=
  { MessageType := .ORDER_PARTIALLY_FILLED, Payload := .tradeP p }

/-- Embedding of `Socket.sendOrderCanceled`. -/
def sendOrderCanceled (o : Order) : Message :=
  { MessageType := .ORDER_CANCELED, Payload := .orderP { Order := o } }

/-- Embedding of `Socket.sendOrderExecuted`. -/
def sendOrderExecuted (o : Order) : Message :=
  { MessageType := .ORDER_EXECUTED, Payload := .orderP { Order := o } }

/-- Embedding of `Socket.sendOrderTxSuccess`. -/
def sendOrderTxSuccess (o : Order) : Message :=
  { MessageType := .ORDER_TX_SUCCESS, Payload := .orderP { Order := o } }

/-- Embedding of `Socket.sendOrderTxError` (defined in the source, but never
invoked by the outbound switch). -/
def sendOrderTxError (o : Order) : Message :=
  { MessageType := .ORDER_TX_ERROR, Payload := .orderP { Order := o } }

/-- Embedding of `Socket.sendTradeExecuted`. -/
def sendTradeExecuted (t : Trade) : Message :=
  { MessageType := .TRADE_EXECUTED, Payload := .tradeP { Trade := t } }

/-- Embedding of `Socket.sendTradeTxSuccess`. -/
def sendTradeTxSuccess (t : Trade) : Message :=
  { MessageType := .TRADE_TX_SUCCESS, Payload := .tradeP { Trade := t } }

/-- Embedding of `Socket.sendTradeTxError` (defined in the source, but never
invoked by the outbound switch). -/
def sendTradeTxError (t : Trade) : Message :=
  { MessageType := .TRADE_TX_ERROR, Payload := .tradeP { Trade := t } }

/-- Embedding of one iteration of `Socket.handleMessagesOut`: switches on the
event type, type-asserts the payload (panic on mismatch, `.error`), and calls
the corresponding sender; the result is the list of messages written to the
connection for this event. The `ORDER_TX_ERROR` and `TRADE_TX_ERROR` branches
call the success senders, exactly as the source does. -/
def handleMessagesOut (e : Event) : Except String (List Message) :=
  match e.eventType with
  | .ORDER_PLACED =>
      match e.payload with
      | .pOrder o => .ok [sendOrderPlaced o]
      | _ => .error "interface conversion"
  | .ORDER_PARTIALLY_FILLED =>
      match e.payload with
      | .pTradePayload p => .ok [sendOrderPartiallyFilled p]
      | _ => .error "interface conversion"
  | .ORDER_FILLED =>
      match e.payload with
      | .pTradePayload p => .ok [sendOrderFilled p]
      | _ => .error "interface conversion"
  | .ORDER_CANCELED =>
      match e.payload with
      | .pOrder o => .ok [sendOrderCanceled o]
      | _ => .error "interface conversion"
  | .ORDER_EXECUTED =>
      match e.payload with
      | .pOrder o => .ok [sendOrderExecuted o]
      | _ => .error "interface conversion"
  | .ORDER_TX_SUCCESS =>
      match e.payload with
      | .pOrder o => .ok [sendOrderTxSuccess o]
      | _ => .error "interface conversion"
  | .ORDER_TX_ERROR =>
      match e.payload with
      | .pOrder o => .ok [sendOrderTxSuccess o]
      | _ => .error "interface conversion"
  | .TRADE_EXECUTED =>
      match e.payload with
      | .pTrade t => .ok [sendTradeExecuted t]
      | _ => .error "interface conversion"
  | .TRADE_TX_SUCCESS =>
      match e.payload with
      | .pTrade t => .ok [sendTradeTxSuccess t]
      | _ => .error "interface conversion"
  | .TRADE_TX_ERROR =>
      match e.payload with
      | .pTrade t => .ok [sendTradeTxSuccess t]
      | _ => .error "interface conversion"
  | .DONE => .ok []
  | _ => .error "Unknown action type"

/-- Embedding of `OrderFactory.NewOrderMessage`: builds an order through
`NewOrder` — the source passes `amountBuy` again in the `amountSell`
position — and wraps it in a PLACE_ORDER message. -/
def OrderFactory.NewOrderMessage (f : OrderFactory) (tokenBuy : Token)
    (amountBuy : Int) (tokenSell : Token) (amountSell : Int) :
    Message × Order × OrderFactory :=
  let r := f.NewOrder tokenBuy amountBuy tokenSell amountBuy
  ({ MessageType := .PLACE_ORDER, Payload := .orderP { Order := r.1 } }, r.1, r.2)

/-- Embedding of `OrderFactory.NewCancelOrderMessage`. -/
def OrderFactory.NewCancelOrderMessage (f : OrderFactory) (o : Order) :
    Message × OrderFactory :=
  let r := f.NewOrderCancel o
  ({ MessageType := .CANCEL_ORDER, Payload := .orderCancelP { OrderCancel := r.1 } }, r.2)

/-! ### Derived characterizations and concrete fixtures -/

/-- Iterate `NewOrder` with fixed arguments: the list of orders produced by
the first `n` calls, plus the factory state after them. -/
def ordersN (tb : Token) (ab : Int) (ts : Token) (sel : Int) :
    OrderFactory → Nat → List Order × OrderFactory
  | f, 0 => ([], f)
  | f, n + 1 =>
    let r := f.NewOrder tb ab ts sel
    let rest := ordersN tb ab ts sel r.2 n
    (r.1 :: rest.1, rest.2)

/-- Whether a message type is one the inbound switch accepts. -/
def inboundKindOk (t : MsgType) : Bool :=
  match t with
  | .PLACE_ORDER | .CANCEL_ORDER | .SIGNED_DATA | .DONE => true
  | _ => false

/-- Whether a PlaceOrder payload carries the nested order object the handler
asserts it to. -/
def placeOrderPayloadOk : MessagePayload → Bool
  | .raw (.vmap kvs) =>
      match goLookup kvs "order" with
      | .vmap _ => true
      | _ => false
  | _ => false

/-- The engine invocation the inbound table in the spec assigns to a
message (for messages with an accepted kind and, for PlaceOrder, a
well-formed payload). -/
def engineCallFor (m : Message) : List EngineCall :=
  match m.MessageType with
  | .PLACE_ORDER =>
      match m.Payload with
      | .raw (.vmap kvs) =>
          match goLookup kvs "order" with
          | .vmap okvs => [.addOrder (Order.Decode okvs)]
          | _ => []
      | _ => []
  | .CANCEL_ORDER => cancelOrder m.Payload
  | .SIGNED_DATA => executeOrder m.Payload
  | _ => []

/-- A deterministic pseudo-random source used in concrete examples. -/
def gen0 : NonceGen := { seq := fun n => n, pos := 0 }

/-- Example token A. -/
def tokA : Token := { address := 10, symbol := "A" }

/-- Example token B. -/
def tokB : Token := { address := 20, symbol := "B" }

/-- A freshly constructed factory, exactly the record `NewOrderFactory`
returns for a successful dial. -/
def exFresh : OrderFactory :=
  { Pair := { ID := 1 }, Wallet := { address := 2, privKey := 3 }, Exchange := 4,
    Params := { FeeMake := 0, FeeTake := 0, Nonce := 0, Expires := 10 ^ 18 },
    TradeNonce := 0, OrderNonce := 0, CurrentOrderID := 0, NonceGenerator := gen0 }

/-- A concrete order used as an event payload in examples. -/
def exOrder : Order := { Order.zero with Id := 7, AmountBuy := 100, AmountSell := 50 }

/-- A concrete trade used as an event payload in examples. -/
def exTrade : Trade := { Trade.zero with OrderHash := 5, Amount := 25 }

/-- A PlaceOrder message whose payload is an object with no "order" key. -/
def exBadPlaceMsg : Message :=
  { MessageType := .PLACE_ORDER, Payload := .raw (.vmap [("foo", .vnum 1)]) }

/-- A PlaceOrder message whose payload is an empty object. -/
def exPlaceNoOrder : Message :=
  { MessageType := .PLACE_ORDER, Payload := .raw (.vmap []) }

/-- A CancelOrder message whose payload fails to decode. -/
def exBadCancelMsg : Message := { MessageType := .CANCEL_ORDER, Payload := .raw .vnil }

/-- A SignedData message whose payload fails to decode. -/
def exBadTradeMsg : Message := { MessageType := .SIGNED_DATA, Payload := .raw .vnil }

/-- An inbound message with a kind outside the inbound switch. -/
def exUnknownMsg : Message := { MessageType := .ORDER_PLACED, Payload := .raw .vnil }

/-! ### Helper lemmas -/

/-- Unfolding of one `ordersN` step. -/
theorem ordersN_cons (tb : Token) (ab : Int) (ts : Token) (sel : Int)
    (f : OrderFactory) (n : Nat) :
    ordersN tb ab ts sel f (n + 1)
      = ((f.NewOrder tb ab ts sel).1
           :: (ordersN tb ab ts sel (f.NewOrder tb ab ts sel).2 n).1,
         (ordersN tb ab ts sel (f.NewOrder tb ab ts sel).2 n).2) := rfl

/-- The ids of `n` consecutive orders are the successive values of the
`uint64` counter. -/
theorem ordersN_ids (tb : Token) (ab : Int) (ts : Token) (sel : Int) (n : Nat) :
    ∀ f : OrderFactory, f.CurrentOrderID < U64 →
      ((ordersN tb ab ts sel f n).1).map (fun o => o.Id)
        = (List.range n).map (fun k => (f.CurrentOrderID + k) % U64) := by
  induction n with
  | zero => intro f _; simp [ordersN]
  | succ n ih =>
      intro f h
      have hstep : ((f.NewOrder tb ab ts sel).2).CurrentOrderID
          = (f.CurrentOrderID + 1) % U64 := rfl
      have h2 : ((f.NewOrder tb ab ts sel).2).CurrentOrderID < U64 := by
        rw [hstep]; exact Nat.mod_lt _ (by norm_num [U64])
      have htl := ih (f.NewOrder tb ab ts sel).2 h2
      rw [ordersN_cons, List.map_cons, htl, hstep, List.range_succ_eq_map,
        List.map_cons, List.map_map]
      have hhd : (f.NewOrder tb ab ts sel).1.Id = (f.CurrentOrderID + 0) % U64 := by
        show f.CurrentOrderID = (f.CurrentOrderID + 0) % U64
        rw [Nat.add_zero, Nat.mod_eq_of_lt h]
      rw [hhd]
      congr 1
      refine List.map_congr_left (fun x _ => ?_)
      show ((f.CurrentOrderID + 1) % U64 + x) % U64
          = (f.CurrentOrderID + Nat.succ x) % U64
      rw [Nat.mod_add_mod]
      congr 1
      omega

/-- The `OrderNonce` counter after `n` calls. -/
theorem ordersN_orderNonce (tb : Token) (ab : Int) (ts : Token) (sel : Int) (n : Nat) :
    ∀ f : OrderFactory, f.OrderNonce < U64 →
      ((ordersN tb ab ts sel f n).2).OrderNonce = (f.OrderNonce + n) % U64 := by
  induction n with
  | zero =>
      intro f h
      show f.OrderNonce = (f.OrderNonce + 0) % U64
      rw [Nat.add_zero, Nat.mod_eq_of_lt h]
  | succ n ih =>
      intro f h
      have hstep : ((f.NewOrder tb ab ts sel).2).OrderNonce
          = (f.OrderNonce + 1) % U64 := rfl
      have h2 : ((f.NewOrder tb ab ts sel).2).OrderNonce < U64 := by
        rw [hstep]; exact Nat.mod_lt _ (by norm_num [U64])
      have htl := ih (f.NewOrder tb ab ts sel).2 h2
      rw [ordersN_cons]
      rw [htl, hstep, Nat.mod_add_mod]
      congr 1
      omega

/-- The inbound loop on messages with accepted kinds and well-formed
PlaceOrder payloads produces exactly the per-message engine calls, in
order. -/
theorem handleMessagesIn_ok : ∀ ms : List Message,
    (∀ m ∈ ms, inboundKindOk m.MessageType = true) →
    (∀ m ∈ ms, m.MessageType = MsgType.PLACE_ORDER →
        placeOrderPayloadOk m.Payload = true) →
    handleMessagesIn ms = .ok ((ms.map engineCallFor).flatten) := by
  intro ms
  induction ms with
  | nil => intro _ _; rfl
  | cons m ms ih =>
      intro hk hp
      have hkm := hk m (List.mem_cons_self m ms)
      have htl := ih (fun x hx => hk x (List.mem_cons_of_mem m hx))
        (fun x hx => hp x (List.mem_cons_of_mem m hx))
      obtain ⟨mt, pl⟩ := m
      cases mt with
      | PLACE_ORDER =>
          have hpm := hp ⟨MsgType.PLACE_ORDER, pl⟩
            (List.mem_cons_self _ ms) rfl
          cases pl with
          | raw gv =>
              cases gv with
              | vmap kvs =>
                  cases hlook : goLookup kvs "order" with
                  | vmap okvs =>
                      simp [handleMessagesIn, placeOrder, engineCallFor, hlook, htl]
                  | vnil => simp [placeOrderPayloadOk, hlook] at hpm
                  | vbool b => simp [placeOrderPayloadOk, hlook] at hpm
                  | vnum x => simp [placeOrderPayloadOk, hlook] at hpm
                  | vstr s => simp [placeOrderPayloadOk, hlook] at hpm
                  | varr l => simp [placeOrderPayloadOk, hlook] at hpm
              | vnil => simp [placeOrderPayloadOk] at hpm
              | vbool b => simp [placeOrderPayloadOk] at hpm
              | vnum x => simp [placeOrderPayloadOk] at hpm
              | vstr s => simp [placeOrderPayloadOk] at hpm
              | varr l => simp [placeOrderPayloadOk] at hpm
          | orderP op => simp [placeOrderPayloadOk] at hpm
          | tradeP tp => simp [placeOrderPayloadOk] at hpm
          | orderCancelP cp => simp [placeOrderPayloadOk] at hpm
      | CANCEL_ORDER => simp [handleMessagesIn, engineCallFor, htl]
      | SIGNED_DATA => simp [handleMessagesIn, engineCallFor, htl]
      | DONE => simp [handleMessagesIn, engineCallFor, htl]
      | ORDER_PLACED => simp [inboundKindOk] at hkm
      | ORDER_PARTIALLY_FILLED => simp [inboundKindOk] at hkm
      | ORDER_FILLED => simp [inboundKindOk] at hkm
      | ORDER_CANCELED => simp [inboundKindOk] at hkm
      | ORDER_EXECUTED => simp [inboundKindOk] at hkm
      | ORDER_TX_SUCCESS => simp [inboundKindOk] at hkm
      | ORDER_TX_ERROR => simp [inboundKindOk] at hkm
      | TRADE_EXECUTED => simp [inboundKindOk] at hkm
      | TRADE_TX_SUCCESS => simp [inboundKindOk] at hkm
      | TRADE_TX_ERROR => simp [inboundKindOk] at hkm

/-- A message whose kind is outside the inbound switch panics the dispatch
loop immediately, with no engine call made. -/
theorem handleMessagesIn_unknown (m : Message)
    (hm : inboundKindOk m.MessageType = false) :
    handleMessagesIn [m] = .error ([], "Unknown message type") := by
  obtain ⟨mt, pl⟩ := m
  cases mt
  case PLACE_ORDER => simp [inboundKindOk] at hm
  case CANCEL_ORDER => simp [inboundKindOk] at hm
  case SIGNED_DATA => simp [inboundKindOk] at hm
  case DONE => simp [inboundKindOk] at hm
  all_goals rfl

/-! ### Claim theorems -/

/-- C1: the outbound dispatch does NOT realize the 1:1 table on the TX-error
rows: an OrderTxError event is routed to `sendOrderTxSuccess` and emits a
message of kind ORDER_TX_SUCCESS, and a TradeTxError event is routed to
`sendTradeTxSuccess` and emits TRADE_TX_SUCCESS, although the senders for the
error kinds exist. This theorem evaluates the outbound dispatch at the two
failing event kinds. -/
theorem c1_tx_error_events_emit_success_kind :
    handleMessagesOut { eventType := .ORDER_TX_ERROR, payload := .pOrder exOrder }
      = .ok [{ MessageType := .ORDER_TX_SUCCESS, Payload := .orderP { Order := exOrder } }]
  ∧ handleMessagesOut { eventType := .TRADE_TX_ERROR, payload := .pTrade exTrade }
      = .ok [{ MessageType := .TRADE_TX_SUCCESS, Payload := .tradeP { Trade := exTrade } }]
  ∧ sendOrderTxError exOrder
      = { MessageType := .ORDER_TX_ERROR, Payload := .orderP { Order := exOrder } }
  ∧ sendTradeTxError exTrade
      = { MessageType := .TRADE_TX_ERROR, Payload := .tradeP { Trade := exTrade } }
  ∧ MsgType.ORDER_TX_SUCCESS ≠ MsgType.ORDER_TX_ERROR
  ∧ MsgType.TRADE_TX_SUCCESS ≠ MsgType.TRADE_TX_ERROR :=
  ⟨rfl, rfl, rfl, rfl, by decide, by decide⟩

/-- C2: `NewOrderMessage` does NOT build the order from `amountSell`: it
passes `amountBuy` in the `amountSell` position of `NewOrder`, so for
`amountBuy = 100`, `amountSell = 50` the wrapped order has
`AmountSell = 100`, not `50`. The message kind and `AmountBuy` conjuncts
hold. -/
theorem c2_new_order_message_ignores_amount_sell :
    (exFresh.NewOrderMessage tokA 100 tokB 50).1.MessageType = .PLACE_ORDER
  ∧ (exFresh.NewOrderMessage tokA 100 tokB 50).1.Payload
      = .orderP { Order := (exFresh.NewOrderMessage tokA 100 tokB 50).2.1 }
  ∧ (exFresh.NewOrderMessage tokA 100 tokB 50).2.1.AmountBuy = 100
  ∧ (exFresh.NewOrderMessage tokA 100 tokB 50).2.1.AmountSell = 100
  ∧ (exFresh.NewOrderMessage tokA 100 tokB 50).2.1.AmountSell ≠ 50 :=
  ⟨rfl, rfl, rfl, rfl, by decide⟩

/-- C3: a PlaceOrder message whose payload has no nested order object is NOT
silently dropped: the unchecked type assertion in `placeOrder` panics
(`.error`), crashing the dispatch goroutine, though `Engine.AddOrder` is
indeed not invoked (the trace of engine calls at the panic is empty). -/
theorem c3_place_order_missing_order_object_panics :
    placeOrder exBadPlaceMsg.Payload = .error "interface conversion"
  ∧ handleMessagesIn [exBadPlaceMsg] = .error ([], "interface conversion") :=
  ⟨rfl, rfl⟩

/-- C4: on a CancelOrder or SignedData message whose payload fails to decode,
the message is NOT dropped: the decode error is only logged and the engine
operation is still invoked, with the zero-value entity left in the freshly
constructed payload struct; the loop continues (result is `.ok`). -/
theorem c4_decode_failure_still_invokes_engine :
    DecodeOrderCancelPayload exBadCancelMsg.Payload
      = .error "could not decode OrderCancelPayload"
  ∧ handleMessagesIn [exBadCancelMsg] = .ok [.cancelOrder OrderCancel.zero]
  ∧ DecodeTradePayload exBadTradeMsg.Payload
      = .error "could not decode TradePayload"
  ∧ handleMessagesIn [exBadTradeMsg] = .ok [.executeOrder Trade.zero] :=
  ⟨rfl, rfl, rfl, rfl⟩

/-- C5 (counterexample): the claim fails for N = 2^64 + 1 because the id
counter is a `uint64` and wraps: starting from the factory `NewOrderFactory`
returns, the order produced by call 1 and the order produced by call
2^64 + 1 both have Id 0, so the ids are not gap-free 0..N-1 and two orders
of one factory share an Id. -/
theorem c5_counterexample :
    NewOrderFactory true 4 { ID := 1 } { address := 2, privKey := 3 } gen0 = some exFresh
  ∧ (((ordersN tokA 100 tokB 50 exFresh (U64 + 1)).1).map (fun o => o.Id))[0]?
      = some 0
  ∧ (((ordersN tokA 100 tokB 50 exFresh (U64 + 1)).1).map (fun o => o.Id))[U64]?
      = some 0
  ∧ ((ordersN tokA 100 tokB 50 exFresh (U64 + 1)).1).map (fun o => o.Id)
      ≠ List.range (U64 + 1) := by
  have hc : exFresh.CurrentOrderID = 0 := rfl
  have hids := ordersN_ids tokA 100 tokB 50 (U64 + 1) exFresh (by decide)
  have key : (((ordersN tokA 100 tokB 50 exFresh (U64 + 1)).1).map (fun o => o.Id))[U64]?
      = some 0 := by
    rw [hids, List.getElem?_map, List.getElem?_range (Nat.lt_succ_self U64)]
    simp [hc, Nat.mod_self]
  refine ⟨rfl, ?_, key, ?_⟩
  · rw [hids, List.getElem?_map, List.getElem?_range (by decide : 0 < U64 + 1)]
    simp [hc]
  · intro hEq
    rw [hEq, List.getElem?_range (Nat.lt_succ_self U64)] at key
    exact absurd (Option.some.inj key) (by decide)

/-- C5 (amended): for every N < 2^64, N sequential `NewOrder` calls starting
from a fresh factory yield ids exactly 0, 1, ..., N-1, and each call
increments the `OrderNonce` counter by exactly one. -/
theorem c5_fresh_factory_ids_gap_free (ex : Address) (p : TokenPair) (w : Wallet)
    (g : NonceGen) (f : OrderFactory)
    (hf : NewOrderFactory true ex p w g = some f)
    (tb : Token) (ab : Int) (ts : Token) (sel : Int)
    (N k : Nat) (hN : N < U64) (hk : k < N) :
    ((ordersN tb ab ts sel f N).1).map (fun o => o.Id) = List.range N
  ∧ ((ordersN tb ab ts sel f (k + 1)).2).OrderNonce
      = ((ordersN tb ab ts sel f k).2).OrderNonce + 1 := by
  simp only [NewOrderFactory, if_true, Option.some.injEq] at hf
  have hc : f.CurrentOrderID = 0 := by rw [← hf]
  have hn : f.OrderNonce = 0 := by rw [← hf]
  constructor
  · rw [ordersN_ids tb ab ts sel N f (by rw [hc]; decide)]
    simp only [hc, Nat.zero_add]
    calc (List.range N).map (fun kk => kk % U64)
        = (List.range N).map id :=
          List.map_congr_left (fun x hx =>
            Nat.mod_eq_of_lt (lt_trans (List.mem_range.mp hx) hN))
      _ = List.range N := List.map_id _
  · have hnm : (0 : Nat) < U64 := by decide
    rw [ordersN_orderNonce tb ab ts sel (k + 1) f (by rw [hn]; exact hnm),
      ordersN_orderNonce tb ab ts sel k f (by rw [hn]; exact hnm), hn,
      Nat.zero_add, Nat.zero_add,
      Nat.mod_eq_of_lt (lt_of_le_of_lt (Nat.succ_le_of_lt hk) hN),
      Nat.mod_eq_of_lt (lt_trans hk hN)]

/-- C5 (witness): three calls on a concrete fresh factory yield ids 0, 1, 2
and the second call bumps `OrderNonce` from 1 to 2. -/
theorem c5_fresh_factory_ids_gap_free_witness :
    ((ordersN tokA 100 tokB 50 exFresh 3).1).map (fun o => o.Id) = List.range 3
  ∧ ((ordersN tokA 100 tokB 50 exFresh 2).2).OrderNonce
      = ((ordersN tokA 100 tokB 50 exFresh 1).2).OrderNonce + 1 :=
  c5_fresh_factory_ids_gap_free 4 { ID := 1 } { address := 2, privKey := 3 } gen0
    exFresh rfl tokA 100 tokB 50 3 1 (by decide) (by decide)

/-- C6 (counterexample): a sequence whose kinds are all among the four valid
ones need not produce one engine call per message: a PlaceOrder message with
an empty-object payload makes the dispatcher panic with no engine call, so
`AddOrder` is not invoked exactly once for it. -/
theorem c6_counterexample :
    inboundKindOk exPlaceNoOrder.MessageType = true
  ∧ handleMessagesIn [exPlaceNoOrder] = .error ([], "interface conversion") :=
  ⟨rfl, rfl⟩

/-- C6 (amended): for every sequence of inbound messages whose kinds are all
among PlaceOrder, CancelOrder, SignedData and Done and in which every
PlaceOrder payload carries its nested order object, the dispatch loop makes
exactly the matching engine invocation per message (none for Done), in
arrival order; and a message of any other kind panics the dispatcher. -/
theorem c6_inbound_dispatch_fifo (ms : List Message)
    (hk : ∀ m ∈ ms, inboundKindOk m.MessageType = true)
    (hp : ∀ m ∈ ms, m.MessageType = MsgType.PLACE_ORDER →
        placeOrderPayloadOk m.Payload = true)
    (m' : Message) (hm' : inboundKindOk m'.MessageType = false) :
    handleMessagesIn ms = .ok ((ms.map engineCallFor).flatten)
  ∧ handleMessagesIn [m'] = .error ([], "Unknown message type") :=
  ⟨handleMessagesIn_ok ms hk hp, handleMessagesIn_unknown m' hm'⟩

/-- C6 (witness): a concrete four-message sequence, one per valid kind, and a
concrete unknown-kind message. -/
theorem c6_inbound_dispatch_fifo_witness :
    handleMessagesIn
        [{ MessageType := .PLACE_ORDER,
           Payload := .raw (.vmap [("order", .vmap [("id", .vnum 3)])]) },
         exBadCancelMsg, exBadTradeMsg,
         { MessageType := .DONE, Payload := .raw .vnil }]
      = .ok (([{ MessageType := .PLACE_ORDER,
                 Payload := .raw (.vmap [("order", .vmap [("id", .vnum 3)])]) },
               exBadCancelMsg, exBadTradeMsg,
               { MessageType := .DONE, Payload := .raw .vnil }].map engineCallFor).flatten)
  ∧ handleMessagesIn [exUnknownMsg] = .error ([], "Unknown message type") :=
  c6_inbound_dispatch_fifo
    [{ MessageType := .PLACE_ORDER,
       Payload := .raw (.vmap [("order", .vmap [("id", .vnum 3)])]) },
     exBadCancelMsg, exBadTradeMsg,
     { MessageType := .DONE, Payload := .raw .vnil }]
    (by decide) (by decide) exUnknownMsg (by decide)

/-- C7: from a factory with CurrentOrderID = 0, buying 100 of token A for 50
of token B yields an order with Id 0, AmountBuy 100, AmountSell 50 and a
non-nil signature, and a second call yields Id 1. -/
theorem c7_first_order_scenario (f : OrderFactory) (h : f.CurrentOrderID = 0)
    (tA tB : Token) :
    (f.NewOrder tA 100 tB 50).1.Id = 0
  ∧ (f.NewOrder tA 100 tB 50).1.AmountBuy = 100
  ∧ (f.NewOrder tA 100 tB 50).1.AmountSell = 50
  ∧ (f.NewOrder tA 100 tB 50).1.Signature ≠ none
  ∧ (((f.NewOrder tA 100 tB 50).2).NewOrder tA 100 tB 50).1.Id = 1 := by
  refine ⟨h, rfl, rfl, fun hx => Option.noConfusion hx, ?_⟩
  show (f.CurrentOrderID + 1) % U64 = 1
  rw [h]
  decide

/-- C7 (witness): the scenario at a concrete fresh factory. -/
theorem c7_first_order_scenario_witness :
    (exFresh.NewOrder tokA 100 tokB 50).1.Id = 0
  ∧ (exFresh.NewOrder tokA 100 tokB 50).1.AmountBuy = 100
  ∧ (exFresh.NewOrder tokA 100 tokB 50).1.AmountSell = 50
  ∧ (exFresh.NewOrder tokA 100 tokB 50).1.Signature ≠ none
  ∧ (((exFresh.NewOrder tokA 100 tokB 50).2).NewOrder tokA 100 tokB 50).1.Id = 1 :=
  c7_first_order_scenario exFresh rfl tokA tokB

/-- C8: an OrderFilled event carrying a trade payload makes the Hub write
exactly one ORDER_FILLED message wrapping the identical trade data — no
duplicate, no loss. -/
theorem c8_order_filled_event_one_message (p : TradePayload) :
    handleMessagesOut { eventType := .ORDER_FILLED, payload := .pTradePayload p }
      = .ok [{ MessageType := .ORDER_FILLED, Payload := .tradeP p }] :=
  rfl

/-- C9: the nonce `NewOrder` assigns and the trade nonce `NewTrade` assigns
are both in the integer range [0, 1000). -/
theorem c9_nonces_in_range (f : OrderFactory) (tb : Token) (ab : Int)
    (ts : Token) (sel : Int) (o : Order) (amt : Int) :
    (0 ≤ (f.NewOrder tb ab ts sel).1.Nonce
      ∧ (f.NewOrder tb ab ts sel).1.Nonce < 1000)
  ∧ (0 ≤ (f.NewTrade o amt).1.TradeNonce
      ∧ (f.NewTrade o amt).1.TradeNonce < 1000) := by
  have h1 : (f.NewOrder tb ab ts sel).1.Nonce
      = ((f.NonceGenerator.seq f.NonceGenerator.pos % 1000 : Nat) : Int) := rfl
  have h2 : (f.NewTrade o amt).1.TradeNonce
      = ((f.NonceGenerator.seq f.NonceGenerator.pos % 1000 : Nat) : Int) := rfl
  have h3 : f.NonceGenerator.seq f.NonceGenerator.pos % 1000 < 1000 :=
    Nat.mod_lt _ (by norm_num)
  refine ⟨⟨?_, ?_⟩, ?_, ?_⟩
  · rw [h1]; exact Int.natCast_nonneg _
  · rw [h1]; exact_mod_cast h3
  · rw [h2]; exact Int.natCast_nonneg _
  · rw [h2]; exact_mod_cast h3

/-- C10: frame effects of the factory operations. `NewOrder` bumps
`OrderNonce` and `CurrentOrderID` (uint64 increment) and leaves `TradeNonce`,
`Pair`, `Wallet`, `Exchange` and `Params` unchanged; `NewTrade` bumps only
`TradeNonce`; `NewOrderCancel` returns the factory state identically. -/
theorem c10_factory_frame_effects (f : OrderFactory) (tb : Token) (ab : Int)
    (ts : Token) (sel : Int) (o : Order) (amt : Int) :
    ((f.NewOrder tb ab ts sel).2.TradeNonce = f.TradeNonce
      ∧ (f.NewOrder tb ab ts sel).2.OrderNonce = (f.OrderNonce + 1) % U64
      ∧ (f.NewOrder tb ab ts sel).2.CurrentOrderID = (f.CurrentOrderID + 1) % U64
      ∧ (f.NewOrder tb ab ts sel).2.Pair = f.Pair
      ∧ (f.NewOrder tb ab ts sel).2.Wallet = f.Wallet
      ∧ (f.NewOrder tb ab ts sel).2.Exchange = f.Exchange
      ∧ (f.NewOrder tb ab ts sel).2.Params = f.Params)
  ∧ ((f.NewTrade o amt).2.TradeNonce = (f.TradeNonce + 1) % U64
      ∧ (f.NewTrade o amt).2.OrderNonce = f.OrderNonce
      ∧ (f.NewTrade o amt).2.CurrentOrderID = f.CurrentOrderID
      ∧ (f.NewTrade o amt).2.Pair = f.Pair
      ∧ (f.NewTrade o amt).2.Wallet = f.Wallet
      ∧ (f.NewTrade o amt).2.Exchange = f.Exchange
      ∧ (f.NewTrade o amt).2.Params = f.Params)
  ∧ (f.NewOrderCancel o).2 = f :=
  ⟨⟨rfl, rfl, rfl, rfl, rfl, rfl, rfl⟩,
   ⟨rfl, rfl, rfl, rfl, rfl, rfl, rfl⟩, rfl⟩

end Dex
